import Mathlib

/-!
Verification of the fldigi-py client (`src/flgidi-py/__init__.py`) against its
natural-language specification.

The file shallowly embeds the call-dispatch layer (`Fldigi._call`), the fault
classifier, the namespace proxies (`NamespaceProxy`), the convenience facade
(frequency / mode / bandwidth fallback pairs, `get_rx`, `rx`, `tx`, ...), the
class-body attribute table of `Fldigi` (later bindings shadow earlier ones, as
in a Python class body), and construction (`Fldigi.__init__` / `_connect`).

The transport is modelled as an oracle mapping the index of a wire call to the
outcome the underlying XML-RPC machinery would produce for it: either a value,
or a raised Python exception (`xmlrpc.client.Fault` for protocol faults,
anything else for transport/connectivity failures).
-/

/-- Wire values exchanged with the remote application (a fragment of the
XML-RPC value universe; `none` is Python `None`). -/
inductive Value where
  | none
  | bool (b : Bool)
  | int (n : Int)
  | str (s : String)
  deriving DecidableEq, Repr

/-- The typed error taxonomy of fldigi-py: `FldigiXmlrpcError`,
`FldigiRigError`, `FldigiModemError`, `FldigiMainError`. -/
inductive ErrKind where
  | xmlrpc
  | rig
  | modem
  | mainApp
  deriving DecidableEq, Repr

/-- Python exceptions as they appear in this client: an `xmlrpc.client.Fault`
(protocol-level fault), any other exception (connectivity, timeout, TypeError,
...) carried by its display text, or one of the typed `FldigiError` subclasses
with its message and its chained underlying exception (the `from e` cause, or
the implicit context for a raise inside an `except` block; every `FldigiError`
this code raises is raised inside an `except` block, so it always chains). -/
inductive PyExc where
  | fault (code : Int) (faultString : String)
  | other (msg : String)
  | fldigiErr (kind : ErrKind) (msg : String) (cause : PyExc)
  deriving DecidableEq, Repr

/-- One outward remote call: method name and positional arguments, verbatim. -/
structure WireCall where
  method : String
  args : List Value
  deriving DecidableEq, Repr

/-- Transport oracle: the outcome of the n-th wire call issued (0-based). -/
abbrev Oracle := Nat → Except PyExc Value

/-! ### String helpers mirroring the Python operations used by `_call` -/

/-- Whether the first list is an initial segment of the second
(Python `str.startswith` on the underlying characters). -/
def chLeads : List Char → List Char → Bool
  | [], _ => true
  | _ :: _, [] => false
  | a :: as, b :: bs => a == b && chLeads as bs

/-- Whether the first list occurs contiguously inside the second
(Python `needle in hay`). -/
def chHasSub (needle : List Char) : List Char → Bool
  | [] => chLeads needle []
  | h :: t => chLeads needle (h :: t) || chHasSub needle t

/-- Python `needle in hay` on strings. -/
def strHasSub (hay needle : String) : Bool :=
  chHasSub needle.data hay.data

/-- Python `s.startswith(p)`. -/
def strLeads (s p : String) : Bool :=
  chLeads p.data s.data

/-- Python `s.lower()` (the method names involved are ASCII). -/
def strLower (s : String) : String :=
  s.map Char.toLower

/-- Python `str(e)` for the exceptions of this model.  An
`xmlrpc.client.Fault` displays as `<Fault code: 'faultString'>` (its repr);
other exceptions display their message. -/
def pyStr : PyExc → String
  | .fault c s => "<Fault " ++ toString c ++ ": \x27" ++ s ++ "\x27>"
  | .other m => m
  | .fldigiErr _ m _ => m

/-! ### The fault classifier and the dispatcher `Fldigi._call` -/

/-- The namespace-based classification applied by `_call` to an
`xmlrpc.client.Fault`: the `if "rig" in method.lower() / elif "modem" in
method.lower() / elif method.startswith("main.") / else` chain. -/
def faultKind (method : String) : ErrKind :=
  if strHasSub (strLower method) "rig" then .rig
  else if strHasSub (strLower method) "modem" then .modem
  else if strLeads method "main." then .mainApp
  else .xmlrpc

/-- The message head used by the corresponding `raise` statement in `_call`
for a protocol fault. -/
def faultMsgHead : ErrKind → String
  | .rig => "Rig error in "
  | .modem => "Modem error in "
  | .mainApp => "Main error in "
  | .xmlrpc => "XML-RPC fault in "

/-- The typed error raised by `Fldigi._call` when the underlying transport
raises `e` during the call of `method`.  An `xmlrpc.client.Fault` is routed
through the namespace classification (each branch formats
`"<head>{method}: {e.faultString}"` and chains `e` via `from e`); any other
exception is caught by the `except Exception` clause and wrapped as
`FldigiXmlrpcError(f"XML-RPC call failed for {method}: {e}") from e`.
An exception raised inside an `except` handler is not re-examined by the
remaining handlers of the same `try`, so exactly one wrapper is produced. -/
def dispatchExc (method : String) (e : PyExc) : PyExc :=
  match e with
  | .fault c fstr =>
      .fldigiErr (faultKind method)
        (faultMsgHead (faultKind method) ++ method ++ ": " ++ fstr)
        (.fault c fstr)
  | e => .fldigiErr .xmlrpc
        ("XML-RPC call failed for " ++ method ++ ": " ++ pyStr e)
        e

/-- One invocation of `Fldigi._call(method, *args)` appended to an existing
trace of wire calls: the call is issued (recorded in the trace), and the
outcome the oracle assigns to this call index is either returned raw or
wrapped by `dispatchExc`. -/
def dispatchRun (oracle : Oracle) (trace : List WireCall) (method : String)
    (args : List Value) : List WireCall × Except PyExc Value :=
  (trace ++ [⟨method, args⟩],
    match oracle trace.length with
    | .ok v => .ok v
    | .error e => .error (dispatchExc method e))

/-- Number of `FldigiError` wrappers stacked on an exception through its
chained causes. -/
def wrapDepth : PyExc → Nat
  | .fldigiErr _ _ c => 1 + wrapDepth c
  | _ => 0

/-- Whether a raised exception is caught by `except FldigiRigError`. -/
def isRigError : PyExc → Bool
  | .fldigiErr .rig _ _ => true
  | _ => false

/-- Whether an exception is a protocol-level fault
(`xmlrpc.client.Fault`). -/
def isProtocolFault : PyExc → Bool
  | .fault _ _ => true
  | _ => false

/-! ### Spec-side classifier (written from the claim wording, for C1) -/

/-- Written from the decision table of the claim: protocol fault and method
contains "rig" case-insensitively gives RigError; else "modem" gives
ModemError; else a "main." prefix gives MainError; else XmlrpcError; and a
non-protocol-fault failure gives XmlrpcError regardless of method name. -/
def classifyClaim (method : String) (protocolFault : Bool) : ErrKind :=
  if protocolFault then
    if strHasSub (strLower method) "rig" then .rig
    else if strHasSub (strLower method) "modem" then .modem
    else if strLeads method "main." then .mainApp
    else .xmlrpc
  else .xmlrpc

/-! ### Convenience facade: the rig-to-main fallback pairs -/

/-- Shape shared by the three property getters (`frequency`, `mode`,
`bandwidth`): `try: return self._call(rigM)` and
`except FldigiRigError: return self._call(mainM)`.  Only `FldigiRigError` is
caught; an exception raised by the fallback call propagates (a handler's own
exception is not re-examined by the same `try`). -/
def rigMainGetter (oracle : Oracle) (rigM mainM : String) :
    List WireCall × Except PyExc Value :=
  match dispatchRun oracle [] rigM [] with
  | (t1, .ok v) => (t1, .ok v)
  | (t1, .error e) =>
      if isRigError e then dispatchRun oracle t1 mainM []
      else (t1, .error e)

/-- Shape shared by the three property setters: `try: self._call(rigM, arg)`
and `except FldigiRigError: self._call(mainM, arg)`; the wire result is
discarded and the setter returns `None`. -/
def rigMainSetter (oracle : Oracle) (rigM mainM : String) (arg : Value) :
    List WireCall × Except PyExc Value :=
  match dispatchRun oracle [] rigM [arg] with
  | (t1, .ok _) => (t1, .ok .none)
  | (t1, .error e) =>
      if isRigError e then
        match dispatchRun oracle t1 mainM [arg] with
        | (t2, .ok _) => (t2, .ok .none)
        | (t2, .error e2) => (t2, .error e2)
      else (t1, .error e)

/-- The `frequency` property getter. -/
def frequencyGet (oracle : Oracle) : List WireCall × Except PyExc Value :=
  rigMainGetter oracle "rig.get_frequency" "main.get_frequency"

/-- The `frequency` property setter. -/
def frequencySet (oracle : Oracle) (freq : Value) :
    List WireCall × Except PyExc Value :=
  rigMainSetter oracle "rig.set_frequency" "main.set_frequency" freq

/-- The `mode` property getter. -/
def modeGet (oracle : Oracle) : List WireCall × Except PyExc Value :=
  rigMainGetter oracle "rig.get_mode" "main.get_mode"

/-- The `mode` property setter. -/
def modeSet (oracle : Oracle) (modeName : Value) :
    List WireCall × Except PyExc Value :=
  rigMainSetter oracle "rig.set_mode" "main.set_mode" modeName

/-- The `bandwidth` property getter. -/
def bandwidthGet (oracle : Oracle) : List WireCall × Except PyExc Value :=
  rigMainGetter oracle "rig.get_bandwidth" "main.get_bandwidth"

/-- The `bandwidth` property setter. -/
def bandwidthSet (oracle : Oracle) (bw : Value) :
    List WireCall × Except PyExc Value :=
  rigMainSetter oracle "rig.set_bandwidth" "main.set_bandwidth" bw

/-! ### Buffer retrieval -/

/-- Python `length or 0` for `length : Optional[int]`: `None` and `0` are
falsy, every other int is truthy. -/
def intOrZero : Option Int → Int
  | Option.none => 0
  | some l => if l = 0 then 0 else l

/-- `Fldigi.get_rx(start=0, length=None)`:
`return self._call("text.get_rx", start, 0, length or 0)`. -/
def get_rx (oracle : Oracle) (start : Int) (length : Option Int) :
    List WireCall × Except PyExc Value :=
  dispatchRun oracle [] "text.get_rx" [.int start, .int 0, .int (intOrZero length)]

/-! ### The namespace proxy -/

/-- Attribute names on a `NamespaceProxy` instance that normal Python lookup
resolves on the class or on `object`, so that `__getattr__` never fires for
them: the entries of the class dictionary created by the class body of
`NamespaceProxy` (its two methods plus the metadata CPython places there)
and the entries of the dictionary of `object` (enumerated on CPython 3.11;
nearby versions differ only in which rarely-used dunder names exist). -/
def proxyClassAttrs : List String :=
  ["__module__", "__init__", "__getattr__", "__dict__", "__weakref__",
   "__doc__", "__new__", "__repr__", "__hash__", "__str__",
   "__getattribute__", "__setattr__", "__delattr__", "__lt__", "__le__",
   "__eq__", "__ne__", "__gt__", "__ge__", "__reduce_ex__", "__reduce__",
   "__getstate__", "__subclasshook__", "__init_subclass__", "__format__",
   "__sizeof__", "__dir__", "__class__"]

/-- Whether normal Python attribute lookup succeeds for `name` on a
`NamespaceProxy` instance (instance dictionary first - `__init__` stores
`_client` and `_namespace` there - then the class and `object`
dictionaries).  Exactly when it fails does `__getattr__` fire and produce a
forwarder. -/
def proxyNormalLookupHits (name : String) : Bool :=
  name == "_client" || name == "_namespace" || proxyClassAttrs.contains name

/-- What attribute access on a `NamespaceProxy` instance yields: the stored
client or namespace string for the two instance attributes, the resolved
class or `object` attribute (a bound method such as `__init__`, the class,
the docstring, ...) for names normal lookup finds there, and otherwise -
only then does `__getattr__` fire - a closure forwarding to
`self._client._call(f"{self._namespace}.{name}", *args)`. -/
inductive ProxyAttr where
  | forwarder (wireMethod : String)
  | boundClient
  | boundNamespace (ns : String)
  | classAttr (name : String)
  deriving DecidableEq, Repr

/-- Attribute lookup on `NamespaceProxy(client, ns)`. -/
def proxyGetAttr (ns name : String) : ProxyAttr :=
  if name = "_client" then .boundClient
  else if name = "_namespace" then .boundNamespace ns
  else if proxyClassAttrs.contains name then .classAttr name
  else .forwarder (ns ++ "." ++ name)

/-- Invoking `proxy.<name>(*args)` on `NamespaceProxy(client, ns)`: a
forwarder closure issues the dispatcher call and yields its result; the
stored client object and namespace string define no `__call__`, so calling
them raises `TypeError` without issuing any wire call; calling an attribute
resolved on the class or on `object` is ordinary local Python evaluation
that issues no wire call either - its outcome depends only on the local
object (a bound method, the class, a non-callable string, ...) and is
outside the scope of this model, recorded as `Option.none` in the result
component. -/
def proxyCall (oracle : Oracle) (ns name : String) (args : List Value) :
    List WireCall × Option (Except PyExc Value) :=
  match proxyGetAttr ns name with
  | .forwarder w =>
      match dispatchRun oracle [] w args with
      | (t, r) => (t, some r)
  | .boundClient =>
      ([], some (.error (.other "TypeError: \x27Fldigi\x27 object is not callable")))
  | .boundNamespace _ =>
      ([], some (.error (.other "TypeError: \x27str\x27 object is not callable")))
  | .classAttr _ => ([], Option.none)

/-- The namespace-proxy properties of `Fldigi`, in source order: property
name paired with the namespace string passed to `NamespaceProxy`. -/
def proxyProperties : List (String × String) :=
  [("fldigi", "fldigi"), ("main", "main"), ("rig", "rig"), ("text", "text"),
   ("modem", "modem"), ("modem_olivia", "modem.olivia"), ("rx", "rx"),
   ("rxtx", "rxtx"), ("tx", "tx"), ("log", "log"), ("io", "io"),
   ("spot", "spot"), ("navtex", "navtex"), ("wefax", "wefax")]

/-! ### The class body of `Fldigi` -/

/-- The kinds of public members defined in the class body of `Fldigi`. -/
inductive Member where
  | convMeth (wire : String) (returnsResult : Bool)
  | convMeth1 (wire : String)
  | getRxMeth
  | fallbackGetSet (rigGet mainGet rigSet mainSet : String)
  | simpleProp (getWire : String) (setWire : Option String)
  | proxyProp (ns : String)
  deriving DecidableEq, Repr

/-- The public members of the `Fldigi` class body, in source order.  A Python
class body is executed sequentially into one dictionary, so a later binding of
the same name replaces the earlier one (`rx` and `tx` are each bound twice:
first as convenience methods, later as namespace-proxy properties). -/
def fldigiClassBody : List (String × Member) :=
  [("rx", .convMeth "main.rx" true),
   ("tx", .convMeth "main.tx" false),
   ("tune", .convMeth "main.tune" false),
   ("abort", .convMeth "main.abort" false),
   ("add_tx", .convMeth1 "text.add_tx"),
   ("clear_rx", .convMeth "text.clear_rx" false),
   ("clear_tx", .convMeth "text.clear_tx" false),
   ("get_rx", .getRxMeth),
   ("frequency", .fallbackGetSet "rig.get_frequency" "main.get_frequency"
      "rig.set_frequency" "main.set_frequency"),
   ("mode", .fallbackGetSet "rig.get_mode" "main.get_mode"
      "rig.set_mode" "main.set_mode"),
   ("bandwidth", .fallbackGetSet "rig.get_bandwidth" "main.get_bandwidth"
      "rig.set_bandwidth" "main.set_bandwidth"),
   ("squelch", .simpleProp "main.get_squelch_level" (some "main.set_squelch_level")),
   ("signal_strength", .simpleProp "modem.get_quality" Option.none),
   ("rx_state", .simpleProp "main.rx" Option.none),
   ("tx_state", .simpleProp "main.tx" Option.none)]
  ++ proxyProperties.map (fun p => (p.1, Member.proxyProp p.2))

/-- Attribute lookup on a `Fldigi` instance: the latest binding of the name
in the class body wins. -/
def classAttr (name : String) : Option Member :=
  fldigiClassBody.reverse.lookup name

/-- Evaluation of the expression `client.<name>()` (attribute access followed
by a zero-argument call), returning the wire calls issued and the outcome.
A convenience method runs its dispatcher call (returning the raw result, or
`None` when its body discards it); accessing a property runs the property
getter, and calling the resulting non-callable value (a `NamespaceProxy`, a
number, a string, ...) raises `TypeError` - in particular a `NamespaceProxy`
defines no `__call__`, and implicit special-method lookup bypasses
`__getattr__`, so calling the proxy object itself never issues a wire call. -/
def invokeNoArg (oracle : Oracle) (name : String) :
    List WireCall × Except PyExc Value :=
  match classAttr name with
  | Option.none => ([], .error (.other ("AttributeError: " ++ name)))
  | some (.convMeth wire r) =>
      match dispatchRun oracle [] wire [] with
      | (t, .ok v) => (t, .ok (if r then v else .none))
      | (t, .error e) => (t, .error e)
  | some (.convMeth1 _) =>
      ([], .error (.other ("TypeError: " ++ name ++ "() missing 1 required positional argument")))
  | some .getRxMeth => get_rx oracle 0 Option.none
  | some (.fallbackGetSet rigGet mainGet _ _) =>
      match rigMainGetter oracle rigGet mainGet with
      | (t, .ok _) => (t, .error (.other "TypeError: object is not callable"))
      | (t, .error e) => (t, .error e)
  | some (.simpleProp g _) =>
      match dispatchRun oracle [] g [] with
      | (t, .ok _) => (t, .error (.other "TypeError: object is not callable"))
      | (t, .error e) => (t, .error e)
  | some (.proxyProp ns) =>
      ([], .error (.other "TypeError: \x27NamespaceProxy\x27 object is not callable"))

/-! ### Construction: `Fldigi.__init__` and `_connect` -/

/-- Keyword parameters accepted by `xmlrpc.client.ServerProxy.__init__` in
the Python standard library (its documented signature:
`ServerProxy(uri, transport=None, encoding=None, verbose=False,
allow_none=False, use_datetime=False, use_builtin_types=False, *,
headers=(), context=None)`).  There is no `timeout` parameter. -/
def serverProxyKwParams : List String :=
  ["transport", "encoding", "verbose", "allow_none", "use_datetime",
   "use_builtin_types", "headers", "context"]

/-- Calling `xmlrpc.client.ServerProxy(uri, **kwargs)`: an unexpected keyword
argument raises `TypeError` before anything else; otherwise the handle is
built (actual socket connection is deferred to first use). -/
def serverProxyNew (uri : String) (kwargNames : List String) :
    Except PyExc Unit :=
  match kwargNames.find? (fun k => !serverProxyKwParams.contains k) with
  | some k => .error (.other
      ("TypeError: ServerProxy.__init__() got an unexpected keyword argument \x27" ++ k ++ "\x27"))
  | Option.none => .ok ()

/-- The URL formed by `_connect`: `f"http://{self._host}:{self._port}"`. -/
def fldigiUrl (host : String) (port : Int) : String :=
  "http://" ++ host ++ ":" ++ toString port

/-- The `FldigiXmlrpcError` raised by `_connect` when building the server
proxy raises `e`:
`FldigiXmlrpcError(f"Failed to connect to FLDIGI at {url}: {e}")`.  The
`raise` has no `from` clause, but it occurs inside the `except` block, so `e`
is chained as the implicit context. -/
def connectExc (host : String) (port : Int) (e : PyExc) : PyExc :=
  .fldigiErr .xmlrpc
    ("Failed to connect to FLDIGI at " ++ fldigiUrl host port ++ ": " ++ pyStr e)
    e

/-- `Fldigi._connect`: `ServerProxy(url, timeout=self._timeout)` wrapped in
`try / except Exception`. -/
def fldigiConnect (host : String) (port : Int) : Except PyExc Unit :=
  match serverProxyNew (fldigiUrl host port) ["timeout"] with
  | .ok h => .ok h
  | .error e => .error (connectExc host port e)

/-- `Fldigi.__init__(host, port, timeout)`: stores the endpoint and calls
`_connect` immediately (fail-fast).  The timeout value itself is only ever
passed on as the `timeout=` keyword argument. -/
def fldigiNew (host : String) (port : Int) (timeout : Value) :
    Except PyExc Unit :=
  fldigiConnect host port

/-! ### Failure sites (for the diagnosability claim) -/

/-- The two places the client raises a user-visible `FldigiError`: the
dispatcher `_call` (with the remote method name in scope) and `_connect`
(no remote call in progress). -/
inductive FailureSite where
  | dispatch (method : String) (e : PyExc)
  | connect (host : String) (port : Int) (e : PyExc)
  deriving DecidableEq, Repr

/-- The remote method name in scope at a failure site, when one exists. -/
def siteMethod : FailureSite → Option String
  | .dispatch m _ => some m
  | .connect _ _ _ => Option.none

/-- The `FldigiError` the site raises. -/
def siteError : FailureSite → PyExc
  | .dispatch m e => dispatchExc m e
  | .connect h p e => connectExc h p e

/-- The message of an exception (empty for non-`FldigiError` exceptions,
which carry their display text instead). -/
def excMsg : PyExc → String
  | .fldigiErr _ m _ => m
  | .fault _ s => s
  | .other m => m

/-- The chained underlying exception of a `FldigiError`. -/
def excCause : PyExc → Option PyExc
  | .fldigiErr _ _ c => some c
  | _ => Option.none

/-- Formalization of the diagnosability claim at one failure site: the site
has a remote method name in scope and the raised message contains it. -/
def CarriesMethod (s : FailureSite) : Prop :=
  ∃ m a b, siteMethod s = some m ∧ excMsg (siteError s) = a ++ m ++ b

/-! ### Spec-side fallback-pair behavior (written from the claim wording) -/

/-- Written from the claim: the outcome `run` of a facade operation exhibits
the fallback-pair behavior for primary method `rigM`, fallback method
`mainM` and arguments `args` against the transport `oracle` when: on a
successful primary call exactly that one wire call is issued and its raw
result is returned (`None` for a setter); when the primary call raises a
non-RigError it is the only wire call and that error propagates unmodified;
and when the primary call raises RigError exactly one subsequent call to the
fallback method with the same argument values in the same order is issued,
whose raw result is returned on success and whose failure propagates
unmodified with no further call. -/
def FallbackPairBehavior (oracle : Oracle) (run : List WireCall × Except PyExc Value)
    (rigM mainM : String) (args : List Value) (isGet : Bool) : Prop :=
  (∀ v, oracle 0 = .ok v → run = ([⟨rigM, args⟩], .ok (if isGet then v else .none)))
  ∧ (∀ e, oracle 0 = .error e → isRigError (dispatchExc rigM e) = false →
      run = ([⟨rigM, args⟩], .error (dispatchExc rigM e)))
  ∧ (∀ e, oracle 0 = .error e → isRigError (dispatchExc rigM e) = true →
      run.1 = [⟨rigM, args⟩, ⟨mainM, args⟩]
      ∧ (∀ v2, oracle 1 = .ok v2 → run.2 = .ok (if isGet then v2 else .none))
      ∧ (∀ e2, oracle 1 = .error e2 → run.2 = .error (dispatchExc mainM e2)))

/-! ### Helper lemmas -/

/-- The code's fault classification agrees with the claim's decision table on
protocol faults. -/
lemma faultKind_eq_classify (m : String) : faultKind m = classifyClaim m true := by
  simp [faultKind, classifyClaim]

/-- Behavior of the shared getter shape. -/
lemma rigMainGetter_spec (oracle : Oracle) (rigM mainM : String) :
    FallbackPairBehavior oracle (rigMainGetter oracle rigM mainM) rigM mainM [] true := by
  refine ⟨?_, ?_, ?_⟩
  · intro v h0
    simp [rigMainGetter, dispatchRun, h0]
  · intro e h0 hk
    simp [rigMainGetter, dispatchRun, h0, hk]
  · intro e h0 hk
    have hrun : rigMainGetter oracle rigM mainM = dispatchRun oracle [⟨rigM, []⟩] mainM [] := by
      simp [rigMainGetter, dispatchRun, h0, hk]
    refine ⟨?_, ?_, ?_⟩
    · rw [hrun]; simp [dispatchRun]
    · intro v2 h1; rw [hrun]; simp [dispatchRun, h1]
    · intro e2 h1; rw [hrun]; simp [dispatchRun, h1]

/-- Behavior of the shared setter shape. -/
lemma rigMainSetter_spec (oracle : Oracle) (rigM mainM : String) (arg : Value) :
    FallbackPairBehavior oracle (rigMainSetter oracle rigM mainM arg) rigM mainM [arg] false := by
  refine ⟨?_, ?_, ?_⟩
  · intro v h0
    simp [rigMainSetter, dispatchRun, h0]
  · intro e h0 hk
    simp [rigMainSetter, dispatchRun, h0, hk]
  · intro e h0 hk
    have hrun : rigMainSetter oracle rigM mainM arg
        = (match dispatchRun oracle [⟨rigM, [arg]⟩] mainM [arg] with
           | (t2, .ok _) => (t2, Except.ok Value.none)
           | (t2, .error e2) => (t2, .error e2)) := by
      simp [rigMainSetter, dispatchRun, h0, hk]
    refine ⟨?_, ?_, ?_⟩
    · rw [hrun]; simp [dispatchRun]
      cases oracle 1 <;> simp
    · intro v2 h1; rw [hrun]; simp [dispatchRun, h1]
    · intro e2 h1; rw [hrun]; simp [dispatchRun, h1]

/-- A proxy attribute that normal lookup does not resolve is exactly a
dispatcher call on the dotted name: same wire call, same result. -/
lemma proxyCall_forward (oracle : Oracle) (ns name : String) (args : List Value)
    (h : proxyNormalLookupHits name = false) :
    proxyCall oracle ns name args
      = ((dispatchRun oracle [] (ns ++ "." ++ name) args).1,
         some (dispatchRun oracle [] (ns ++ "." ++ name) args).2) := by
  simp only [proxyNormalLookupHits, Bool.or_eq_false_iff, beq_eq_false_iff_ne] at h
  obtain ⟨⟨h1, h2⟩, h3⟩ := h
  have h3m : ¬ name ∈ proxyClassAttrs := by simpa using h3
  simp [proxyCall, proxyGetAttr, h1, h2, h3m]

/-- A proxy attribute that normal lookup resolves never issues a wire
call. -/
lemma proxyCall_local (oracle : Oracle) (ns name : String) (args : List Value)
    (h : proxyNormalLookupHits name = true) :
    (proxyCall oracle ns name args).1 = [] := by
  by_cases h1 : name = "_client"
  · simp [proxyCall, proxyGetAttr, h1]
  · by_cases h2 : name = "_namespace"
    · simp [proxyCall, proxyGetAttr, h1, h2]
    · have h3 : name ∈ proxyClassAttrs := by
        simpa [proxyNormalLookupHits, h1, h2] using h
      simp [proxyCall, proxyGetAttr, h1, h2, h3]

/-! ### Claim theorems -/

/-- C1: for every method name and every failure raised by the transport
during a dispatcher call, the dispatcher raises the typed error of the kind
given by the claim's decision table (first match wins): protocol fault and
"rig" in the lowercased name gives RigError, else "modem" gives ModemError,
else a "main." prefix gives MainError, else XmlrpcError; and every
non-protocol-fault transport failure gives XmlrpcError regardless of the
method name.  The original failure is chained as the cause. -/
theorem dispatch_error_classification : ∀ (oracle : Oracle) (method : String)
    (args : List Value) (e : PyExc), oracle 0 = .error e →
    ∃ msg, dispatchRun oracle [] method args
      = ([⟨method, args⟩],
         .error (.fldigiErr (classifyClaim method (isProtocolFault e)) msg e)) := by
  intro oracle method args e h0
  cases e with
  | fault c s =>
      refine ⟨faultMsgHead (faultKind method) ++ method ++ ": " ++ s, ?_⟩
      simp [dispatchRun, h0, dispatchExc, isProtocolFault, ← faultKind_eq_classify]
  | other m =>
      refine ⟨"XML-RPC call failed for " ++ method ++ ": " ++ pyStr (.other m), ?_⟩
      simp [dispatchRun, h0, dispatchExc, isProtocolFault, classifyClaim]
  | fldigiErr k m c =>
      refine ⟨"XML-RPC call failed for " ++ method ++ ": " ++ pyStr (.fldigiErr k m c), ?_⟩
      simp [dispatchRun, h0, dispatchExc, isProtocolFault, classifyClaim]

theorem dispatch_error_classification_witness :
    ∃ msg, dispatchRun (fun _ => .error (.fault 4 "rig busy")) [] "rig.get_mode" []
      = ([⟨"rig.get_mode", []⟩],
         .error (.fldigiErr (classifyClaim "rig.get_mode"
            (isProtocolFault (.fault 4 "rig busy"))) msg (.fault 4 "rig busy"))) :=
  dispatch_error_classification (fun _ => .error (.fault 4 "rig busy"))
    "rig.get_mode" [] (.fault 4 "rig busy") rfl

/-- C9: a dispatcher invocation that fails with a protocol fault raises
exactly one typed error: the error produced by the classification branch,
chaining the raw fault itself as its cause, with wrapper depth one - it is
never re-caught by the catch-all transport branch and re-wrapped into an
XmlrpcError, because an exception raised inside an `except` handler is not
re-examined by the remaining handlers of the same `try` statement. -/
theorem dispatch_single_wrapping : ∀ (oracle : Oracle) (method : String)
    (args : List Value) (c : Int) (s : String),
    oracle 0 = .error (.fault c s) →
    ∃ msg, dispatchRun oracle [] method args
        = ([⟨method, args⟩], .error (.fldigiErr (faultKind method) msg (.fault c s)))
      ∧ wrapDepth (.fldigiErr (faultKind method) msg (.fault c s)) = 1 := by
  intro oracle method args c s h0
  refine ⟨faultMsgHead (faultKind method) ++ method ++ ": " ++ s, ?_, ?_⟩
  · simp [dispatchRun, h0, dispatchExc]
  · simp [wrapDepth]

theorem dispatch_single_wrapping_witness :
    ∃ msg, dispatchRun (fun _ => .error (.fault 1 "no modem")) [] "modem.set_carrier" [.int 1000]
        = ([⟨"modem.set_carrier", [.int 1000]⟩],
           .error (.fldigiErr (faultKind "modem.set_carrier") msg (.fault 1 "no modem")))
      ∧ wrapDepth (.fldigiErr (faultKind "modem.set_carrier") msg (.fault 1 "no modem")) = 1 :=
  dispatch_single_wrapping (fun _ => .error (.fault 1 "no modem"))
    "modem.set_carrier" [.int 1000] 1 "no modem" rfl

/-- C2: each of the facade properties frequency, mode and bandwidth (get and
set) issues its primary call in the rig namespace and exhibits the
fallback-pair behavior: the fallback call to the equivalent main-namespace
method, with the same argument values in the same order, happens exactly when
the primary call raises RigError, and its outcome is returned (the raw result
for a getter, `None` for a setter, whose Python return value is discarded by
the property machinery); any other error from the primary call propagates
unmodified with no fallback call, and a failure of the fallback call
propagates unmodified with no further call. -/
theorem facade_fallback_pairs : ∀ (oracle : Oracle) (arg : Value),
    FallbackPairBehavior oracle (frequencyGet oracle)
      "rig.get_frequency" "main.get_frequency" [] true
  ∧ FallbackPairBehavior oracle (frequencySet oracle arg)
      "rig.set_frequency" "main.set_frequency" [arg] false
  ∧ FallbackPairBehavior oracle (modeGet oracle)
      "rig.get_mode" "main.get_mode" [] true
  ∧ FallbackPairBehavior oracle (modeSet oracle arg)
      "rig.set_mode" "main.set_mode" [arg] false
  ∧ FallbackPairBehavior oracle (bandwidthGet oracle)
      "rig.get_bandwidth" "main.get_bandwidth" [] true
  ∧ FallbackPairBehavior oracle (bandwidthSet oracle arg)
      "rig.set_bandwidth" "main.set_bandwidth" [arg] false :=
  fun oracle arg =>
    ⟨rigMainGetter_spec oracle _ _, rigMainSetter_spec oracle _ _ arg,
     rigMainGetter_spec oracle _ _, rigMainSetter_spec oracle _ _ arg,
     rigMainGetter_spec oracle _ _, rigMainSetter_spec oracle _ _ arg⟩

theorem facade_fallback_pairs_witness :
    FallbackPairBehavior (fun _ => .ok (.int 14070000))
      (frequencyGet (fun _ => .ok (.int 14070000)))
      "rig.get_frequency" "main.get_frequency" [] true :=
  (facade_fallback_pairs (fun _ => .ok (.int 14070000)) .none).1

/-- C5: `get_rx(start)` with no length issues the wire call
`text.get_rx(start, 0, 0)` (zero as the full-remainder sentinel), and
`get_rx(start, L)` with an explicit length issues
`text.get_rx(start, 0, L)`. -/
theorem get_rx_wire_call : ∀ (oracle : Oracle) (start : Int),
    (get_rx oracle start Option.none).1
      = [⟨"text.get_rx", [.int start, .int 0, .int 0]⟩]
  ∧ ∀ L : Int, (get_rx oracle start (some L)).1
      = [⟨"text.get_rx", [.int start, .int 0, .int L]⟩] := by
  intro oracle start
  refine ⟨rfl, ?_⟩
  intro L
  by_cases hL : L = 0 <;> simp [get_rx, dispatchRun, intOrZero, hL]

theorem get_rx_wire_call_witness :
    (get_rx (fun _ => .ok (.str "cq")) 5 Option.none).1
      = [⟨"text.get_rx", [.int 5, .int 0, .int 0]⟩]
  ∧ (get_rx (fun _ => .ok (.str "cq")) 0 (some 20)).1
      = [⟨"text.get_rx", [.int 0, .int 0, .int 20]⟩] :=
  ⟨(get_rx_wire_call (fun _ => .ok (.str "cq")) 5).1,
   (get_rx_wire_call (fun _ => .ok (.str "cq")) 0).2 20⟩

/-- C10: an explicit length of zero behaves identically to omitting the
length - both issue `text.get_rx(start, 0, 0)` - so a caller asking for zero
characters actually requests the full remainder of the receive buffer. -/
theorem get_rx_zero_length_is_full_remainder : ∀ (oracle : Oracle) (start : Int),
    get_rx oracle start (some 0) = get_rx oracle start Option.none
  ∧ (get_rx oracle start (some 0)).1
      = [⟨"text.get_rx", [.int start, .int 0, .int 0]⟩] :=
  fun _ _ => ⟨rfl, rfl⟩

/-- C3 (divergence witness): in the `Fldigi` class body the convenience
methods `rx` and `tx` (documented as issuing `main.rx` / `main.tx`) are
shadowed by the later namespace-proxy properties of the same names, so
attribute lookup yields the proxy property, and evaluating `client.rx()` or
`client.tx()` raises `TypeError` (a `NamespaceProxy` is not callable) while
issuing no wire call at all - instead of issuing `main.rx` / `main.tx` and
returning the raw result as documented. -/
theorem rx_tx_shadowed_by_proxy_properties :
    classAttr "rx" = some (.proxyProp "rx")
  ∧ classAttr "tx" = some (.proxyProp "tx")
  ∧ invokeNoArg (fun _ => .ok (.bool true)) "rx"
      = ([], .error (.other "TypeError: \x27NamespaceProxy\x27 object is not callable"))
  ∧ invokeNoArg (fun _ => .ok (.bool true)) "tx"
      = ([], .error (.other "TypeError: \x27NamespaceProxy\x27 object is not callable")) :=
  ⟨rfl, rfl, rfl, rfl⟩

/-- C4 (counterexample): the attribute name `_client` refutes the universal
claim - `NamespaceProxy.__init__` stores `_client` as an instance attribute,
so `__getattr__` never fires for it; invoking `proxy._client()` issues no
wire call, while dispatching `"rig._client"` directly issues one. -/
theorem proxy_underscore_attr_not_forwarded :
    (proxyCall (fun _ => .ok Value.none) "rig" "_client" []).1
      ≠ (dispatchRun (fun _ => .ok Value.none) [] "rig._client" []).1 := by
  decide

/-- C4 (amended): for every attribute name that normal Python lookup does
not resolve on the proxy (neither of the instance attributes `_client` and
`_namespace`, and none of the attributes found on the `NamespaceProxy` class
or inherited from `object`, such as `__init__`, `__getattr__`, `__class__`,
`__doc__`), invoking the proxy's attribute issues exactly the same wire
call, and returns exactly the same result, as invoking the dispatcher
directly on `"<namespace_prefix>.<attribute>"` with the same arguments; a
name that normal lookup does resolve is never forwarded and issues no wire
call. -/
theorem proxy_dispatch_equivalence : ∀ (oracle : Oracle) (ns name : String)
    (args : List Value),
    (proxyNormalLookupHits name = false →
      proxyCall oracle ns name args
        = ((dispatchRun oracle [] (ns ++ "." ++ name) args).1,
           some (dispatchRun oracle [] (ns ++ "." ++ name) args).2))
  ∧ (proxyNormalLookupHits name = true →
      (proxyCall oracle ns name args).1 = []) :=
  fun oracle ns name args =>
    ⟨fun h => proxyCall_forward oracle ns name args h,
     fun h => proxyCall_local oracle ns name args h⟩

theorem proxy_dispatch_equivalence_witness :
    proxyCall (fun _ => .ok (.str "BPSK31")) "rig" "get_mode" []
      = ((dispatchRun (fun _ => .ok (.str "BPSK31")) [] "rig.get_mode" []).1,
         some (dispatchRun (fun _ => .ok (.str "BPSK31")) [] "rig.get_mode" []).2) :=
  (proxy_dispatch_equivalence (fun _ => .ok (.str "BPSK31")) "rig" "get_mode" []).1
    (by decide)

/-- C6 (counterexample): the proxy named `modem_olivia` is bound to the
namespace string `"modem.olivia"`, so its attributes forward to
`modem.olivia.<attribute>` and not to `<proxy name>.<attribute>`:
for the attribute `bandwidth` the issued wire method is
`"modem.olivia.bandwidth"`, which differs from
`"modem_olivia" ++ "." ++ "bandwidth"`. -/
theorem modem_olivia_namespace_mismatch :
    proxyProperties.lookup "modem_olivia" = some "modem.olivia"
  ∧ (proxyCall (fun _ => .ok Value.none) "modem.olivia" "bandwidth" []).1
      = [⟨"modem.olivia.bandwidth", []⟩]
  ∧ ("modem.olivia.bandwidth" : String) ≠ "modem_olivia" ++ "." ++ "bandwidth" := by
  refine ⟨rfl, rfl, by decide⟩

/-- C6 (amended): every proxy property in the declared dynamic surface list
forwards any attribute that normal Python lookup does not resolve on the
proxy (not `_client`, `_namespace`, or a `NamespaceProxy` class / `object`
attribute) to `"<bound namespace>.<attribute>"` through the dispatcher, and
issues no wire call for an attribute normal lookup does resolve; the bound
namespace equals the proxy's name for every proxy except `modem_olivia`,
whose bound namespace is `"modem.olivia"`. -/
theorem proxy_surface_forwarding : ∀ pr : String × String, pr ∈ proxyProperties →
    (∀ (oracle : Oracle) (attr : String) (args : List Value),
      proxyNormalLookupHits attr = false →
      proxyCall oracle pr.2 attr args
        = ((dispatchRun oracle [] (pr.2 ++ "." ++ attr) args).1,
           some (dispatchRun oracle [] (pr.2 ++ "." ++ attr) args).2))
  ∧ (∀ (oracle : Oracle) (attr : String) (args : List Value),
      proxyNormalLookupHits attr = true →
      (proxyCall oracle pr.2 attr args).1 = [])
  ∧ (pr.1 = "modem_olivia" → pr.2 = "modem.olivia")
  ∧ (pr.1 ≠ "modem_olivia" → pr.2 = pr.1) := by
  intro pr hpr
  refine ⟨fun oracle attr args h => proxyCall_forward oracle pr.2 attr args h,
    fun oracle attr args h => proxyCall_local oracle pr.2 attr args h, ?_, ?_⟩
  · fin_cases hpr <;> decide
  · fin_cases hpr <;> decide

theorem proxy_surface_forwarding_witness :
    proxyCall (fun _ => .ok Value.none) "text" "clear_rx" []
      = ((dispatchRun (fun _ => .ok Value.none) [] "text.clear_rx" []).1,
         some (dispatchRun (fun _ => .ok Value.none) [] "text.clear_rx" []).2) :=
  (proxy_surface_forwarding ("text", "text") (by decide)).1
    (fun _ => .ok Value.none) "clear_rx" [] (by decide)

/-- C7 (counterexample): the connectivity error raised at construction by
`_connect` has no remote method name in scope - no remote call is in
progress - so the claim that every user-visible failure carries the original
remote method name in its message fails at this site. -/
theorem connect_failure_carries_no_method :
    ¬ CarriesMethod (.connect "127.0.0.1" 7362
      (.other "TypeError: ServerProxy.__init__() got an unexpected keyword argument \x27timeout\x27")) := by
  simp [CarriesMethod, siteMethod]

/-- C7 (amended): every typed error raised by the dispatcher carries the
original remote method name in its message and chains the underlying cause;
the connectivity error raised at construction also chains its cause (as the
implicit exception context) and embeds the cause's display text in its
message, but carries no remote method name since none exists at
construction; and no dispatcher failure is silently discarded - a failing
transport outcome always surfaces as the classified error. -/
theorem failure_diagnosability : ∀ (m : String) (e : PyExc) (host : String) (p : Int),
    CarriesMethod (.dispatch m e)
  ∧ excCause (siteError (.dispatch m e)) = some e
  ∧ excCause (siteError (.connect host p e)) = some e
  ∧ (∃ a, excMsg (siteError (.connect host p e)) = a ++ pyStr e)
  ∧ siteMethod (.connect host p e) = Option.none
  ∧ (∀ (oracle : Oracle) (args : List Value), oracle 0 = .error e →
      (dispatchRun oracle [] m args).2 = .error (siteError (.dispatch m e))) := by
  intro m e host p
  refine ⟨?_, ?_, ?_, ?_, rfl, ?_⟩
  · cases e with
    | fault c s =>
        exact ⟨m, faultMsgHead (faultKind m), ": " ++ s, rfl,
          (String.append_assoc _ ": " s)⟩
    | other msg =>
        exact ⟨m, "XML-RPC call failed for ", ": " ++ pyStr (.other msg), rfl,
          (String.append_assoc _ ": " _)⟩
    | fldigiErr k msg c =>
        exact ⟨m, "XML-RPC call failed for ", ": " ++ pyStr (.fldigiErr k msg c), rfl,
          (String.append_assoc _ ": " _)⟩
  · cases e <;> rfl
  · rfl
  · exact ⟨"Failed to connect to FLDIGI at " ++ fldigiUrl host p ++ ": ", rfl⟩
  · intro oracle args h0
    simp [dispatchRun, h0, siteError]

theorem failure_diagnosability_witness :
    CarriesMethod (.dispatch "rig.set_frequency" (.fault 1 "rig unavailable")) :=
  (failure_diagnosability "rig.set_frequency" (.fault 1 "rig unavailable")
    "127.0.0.1" 7362).1

/-- C8 (divergence witness): construction never returns a usable client.
`_connect` passes `timeout=` to `xmlrpc.client.ServerProxy`, whose
constructor accepts no such keyword parameter, so building the handle raises
`TypeError` for every host, port and timeout, and `__init__` surfaces it as
the connectivity error - the claim's "otherwise returns a usable client
handle" holds for no input. -/
theorem construction_always_fails :
    (∀ (host : String) (p : Int) (t : Value),
      fldigiNew host p t = .error (connectExc host p (.other
        "TypeError: ServerProxy.__init__() got an unexpected keyword argument \x27timeout\x27")))
  ∧ fldigiNew "127.0.0.1" 7362 (.int 5)
      = .error (.fldigiErr .xmlrpc
          ("Failed to connect to FLDIGI at http://127.0.0.1:7362: TypeError: ServerProxy.__init__() got an unexpected keyword argument \x27timeout\x27")
          (.other "TypeError: ServerProxy.__init__() got an unexpected keyword argument \x27timeout\x27")) := by
  refine ⟨fun host p t => rfl, ?_⟩
  rfl
